import Mathlib

/-!
Shallow embedding of `src/backend/utils/gemini_scheduler.py` (class
`GeminiScheduler`).

Modelling conventions:
* Python dictionaries, lists, strings, numbers and booleans are modelled by
  the inductive type `JsonValue`; a Python number (int or float) is modelled
  by a rational, so decimal literals such as `0.3` denote the exact decimal
  rational `3/10`.
* A Python exception is modelled by `Except String`, the string naming the
  exception; code that can raise returns in this monad.
* The external HTTP library call `requests.post` is modelled by an
  `HttpOutcome` input describing the outcome of the one outbound request,
  and the external `json.loads` is a function parameter `jsonLoads :
  String → Option JsonValue` (`none` models `json.JSONDecodeError`).
* `datetime.now().isoformat()` is modelled by a string parameter `now`.
* Side effects performed by a call are recorded in an explicit trace of
  `Effect` values.
-/

/-- Python value universe for the untyped dict/list data handled by the module. -/
inductive JsonValue where
  | null
  | bool (b : Bool)
  | num (q : Rat)
  | str (s : String)
  | arr (elems : List JsonValue)
  | obj (fields : List (String × JsonValue))

/-- Exceptions are identified by a message string. -/
abbrev PyErr := String

/-- The character `LEFT CURLY BRACKET`. -/
def lbrace : Char := Char.ofNat 123

/-- The character `RIGHT CURLY BRACKET`. -/
def rbrace : Char := Char.ofNat 125

/-- The character `APOSTROPHE`, as a one-character string (used by `pyRepr`). -/
def squote : String := String.singleton (Char.ofNat 39)

/-- Key lookup in a modelled Python dict (keys are unique, first match). -/
def lookupKey : List (String × JsonValue) → String → Option JsonValue
  | [], _ => none
  | (k, v) :: rest, key => if k = key then some v else lookupKey rest key

/-- Top-level field access on an object; `none` on missing key or non-object. -/
def getKey (v : JsonValue) (key : String) : Option JsonValue :=
  match v with
  | .obj l => lookupKey l key
  | _ => none

/-- Python `d.get(key, default)`: raises `AttributeError` on a non-dict. -/
def pyGetD (v : JsonValue) (key : String) (default : JsonValue) :
    Except PyErr JsonValue :=
  match v with
  | .obj l =>
    match lookupKey l key with
    | some x => .ok x
    | none => .ok default
  | _ => .error "AttributeError"

/-- Python truthiness of a value. -/
def pyTruthy : JsonValue → Bool
  | .null => false
  | .bool b => b
  | .num q => q != 0
  | .str s => s != ""
  | .arr l => !l.isEmpty
  | .obj l => !l.isEmpty

/-- Python iteration `for x in v`: lists yield elements, strings yield
one-character strings, dicts yield their keys; other values raise
`TypeError`. -/
def pyIter : JsonValue → Except PyErr (List JsonValue)
  | .arr l => .ok l
  | .str s => .ok (s.data.map (fun c => .str (String.singleton c)))
  | .obj l => .ok (l.map (fun kv => .str kv.1))
  | _ => .error "TypeError"

/-- Python `len(v)` for sized values; `TypeError` otherwise. -/
def pyLen : JsonValue → Except PyErr Rat
  | .arr l => .ok (l.length : Rat)
  | .str s => .ok (s.data.length : Rat)
  | .obj l => .ok (l.length : Rat)
  | _ => .error "TypeError"

/-- Python `v[0]`: first element of a list or string (`IndexError` when
empty), `KeyError` on a dict, `TypeError` otherwise. -/
def pyIndex0 : JsonValue → Except PyErr JsonValue
  | .arr (x :: _) => .ok x
  | .arr [] => .error "IndexError"
  | .str s =>
    match s.data with
    | c :: _ => .ok (.str (String.singleton c))
    | [] => .error "IndexError"
  | .obj _ => .error "KeyError"
  | _ => .error "TypeError"

mutual

/-- Python `==` on values (structural; dict comparison is modelled as
order-sensitive, and the `bool`/`int` cross-type equality corner of Python
is not modelled — neither is exercised by the data this module handles). -/
def pyEq : JsonValue → JsonValue → Bool
  | .null, .null => true
  | .bool a, .bool b => a == b
  | .num a, .num b => a == b
  | .str a, .str b => a == b
  | .arr a, .arr b => pyEqList a b
  | .obj a, .obj b => pyEqFields a b
  | _, _ => false

/-- Elementwise `pyEq` on lists. -/
def pyEqList : List JsonValue → List JsonValue → Bool
  | [], [] => true
  | x :: xs, y :: ys => pyEq x y && pyEqList xs ys
  | _, _ => false

/-- Fieldwise `pyEq` on object field lists. -/
def pyEqFields : List (String × JsonValue) → List (String × JsonValue) → Bool
  | [], [] => true
  | (k, v) :: xs, (k2, v2) :: ys => k == k2 && pyEq v v2 && pyEqFields xs ys
  | _, _ => false

end

/-- Rendering of a Python number by `str()`: exact for integers; for
non-integral rationals the decimal float rendering of CPython is
approximated by the rational rendering (no claim inspects this case). -/
def ratRender (q : Rat) : String :=
  if q.den = 1 then toString q.num else toString q

mutual

/-- Python `repr()` of a value (string escaping inside `repr` of a `str`
is not modelled; no claim inspects rendered containers). -/
def pyRepr : JsonValue → String
  | .null => "None"
  | .bool true => "True"
  | .bool false => "False"
  | .num q => ratRender q
  | .str s => squote ++ s ++ squote
  | .arr l => "[" ++ String.intercalate ", " (pyReprList l) ++ "]"
  | .obj l => "\x7b" ++ String.intercalate ", " (pyReprFields l) ++ "\x7d"

/-- `repr` of each element of a list. -/
def pyReprList : List JsonValue → List String
  | [] => []
  | x :: xs => pyRepr x :: pyReprList xs

/-- `repr` of each key/value pair of a dict. -/
def pyReprFields : List (String × JsonValue) → List String
  | [] => []
  | (k, v) :: xs => (squote ++ k ++ squote ++ ": " ++ pyRepr v) :: pyReprFields xs

end

/-- Python `str()` of a value, as used by f-string interpolation. -/
def pyStr : JsonValue → String
  | .str s => s
  | v => pyRepr v

/-- Python `sep.join(items)` over a list of values: every element must be a
string, otherwise `TypeError`. -/
def pyJoinList (sep : String) (items : List JsonValue) : Except PyErr String := do
  let strs ← items.mapM (fun v =>
    match v with
    | .str s => Except.ok s
    | _ => Except.error "TypeError")
  pure (String.intercalate sep strs)

/-- Python `sep.join(v)` over an arbitrary iterable value. -/
def pyJoinVal (sep : String) (v : JsonValue) : Except PyErr String := do
  let items ← pyIter v
  pyJoinList sep items

/-- Python `list(set(xs))`: raises `TypeError` on unhashable (container)
elements, and removes duplicates. CPython leaves the resulting order
unspecified (it depends on hashes); the model fixes first-occurrence
order, and no claim depends on this order. -/
def pySetList (xs : List JsonValue) : Except PyErr (List JsonValue) := do
  let _ ← xs.mapM (fun v =>
    match v with
    | .arr _ => Except.error "TypeError"
    | .obj _ => Except.error "TypeError"
    | _ => Except.ok v)
  pure (xs.foldl (fun acc v => if acc.any (pyEq v) then acc else acc ++ [v]) [])

/-- Python `s.find(c)`: index of the first occurrence, `none` for `-1`. -/
def strFind (s : String) (c : Char) : Option Nat :=
  s.data.findIdx? (· = c)

/-- Python `s.rfind(c)`: index of the last occurrence, `none` for `-1`. -/
def strRFind (s : String) (c : Char) : Option Nat :=
  match s.data.reverse.findIdx? (· = c) with
  | some k => some (s.data.length - 1 - k)
  | none => none

/-- Python slice `s[a:b]` for `0 ≤ a ≤ b` (code-point indexing). -/
def pySlice (s : String) (a b : Nat) : String :=
  String.mk ((s.data.drop a).take (b - a))

/-- Python `d[key] = v` on a dict: replaces the value of an existing key in
place, otherwise appends (dict insertion order); `TypeError` on a non-dict. -/
def updateOrAppend (l : List (String × JsonValue)) (key : String) (v : JsonValue) :
    List (String × JsonValue) :=
  match l with
  | [] => [(key, v)]
  | (k, w) :: rest =>
    if k = key then (key, v) :: rest else (k, w) :: updateOrAppend rest key v

/-- Item assignment `target[key] = v` (raises on non-dict targets). -/
def setObjKey (target : JsonValue) (key : String) (v : JsonValue) :
    Except PyErr JsonValue :=
  match target with
  | .obj l => .ok (.obj (updateOrAppend l key v))
  | _ => .error "TypeError"

/-- Whether a value is a dict. -/
def isObj : JsonValue → Bool
  | .obj _ => true
  | _ => false

/-- State set up by `GeminiScheduler.__init__`: the only attributes the class
ever assigns are `api_key` and `base_url`. -/
structure SchedulerState where
  api_key : Option String
  base_url : String

/-- The literal endpoint URL assigned to `self.base_url`. -/
def geminiBaseUrl : String :=
  "https://generativelanguage.googleapis.com/v1beta/models/gemini-pro:generateContent"

/-- `__init__`: `self.api_key = api_key or os.getenv('GEMINI_API_KEY')`
(the argument wins only when truthy, i.e. a non-empty string);
`envKey` models the environment lookup (`none` when the variable is unset). -/
def schedulerInit (api_key : Option String) (envKey : Option String) : SchedulerState :=
  { api_key :=
      match api_key with
      | some k => if k = "" then envKey else some k
      | none => envKey,
    base_url := geminiBaseUrl }

/-- Truthiness of the optional key, as tested by `if not self.api_key`. -/
def keyTruthy : Option String → Bool
  | some k => k != ""
  | none => false

/-- `str()` of the optional key as interpolated into the request URL. -/
def keyString : Option String → String
  | some k => k
  | none => "None"

/-- Observable side effects of a call. The source contains no sleep or
busy-wait anywhere; the `sleep` constructor exists only as vocabulary for
stating (and refuting) claims about throttling. -/
inductive Effect where
  | httpPost (url : String) (headers : List (String × String))
      (payload : JsonValue) (timeoutSeconds : Nat)
  | sleep (seconds : Nat)

/-- Outcome of the one `requests.post` call: either a raised
`requests.exceptions.RequestException`, or a response carrying its status
code, its `.text`, and the result of `.json()` (`.error` when the body is
not JSON and `.json()` raises). -/
inductive HttpOutcome where
  | requestException (msg : String)
  | response (status : Nat) (text : String) (body : Except PyErr JsonValue)

/-- The fixed request payload literal of `call_gemini_api` (the float
literals `0.3` and `0.95` denote the decimal rationals `3/10` and `19/20`). -/
def buildPayload (prompt : String) : JsonValue :=
  .obj [("contents", .arr [.obj [("parts", .arr [.obj [("text", .str prompt)]])]]),
        ("generationConfig", .obj [
          ("temperature", .num ((3 : Rat)/10)),
          ("topK", .num 40),
          ("topP", .num ((19 : Rat)/20)),
          ("maxOutputTokens", .num 4096)])]

/-- The literal returned by `_generate_mock_schedule`. -/
def mockSchedule : JsonValue :=
  .obj [
    ("scheduling_strategy",
      .str "Mock AI-optimized schedule - Location clustering with time-of-day optimization"),
    ("total_shooting_days", .num 3),
    ("daily_schedules", .arr [.obj [
      ("day", .num 1),
      ("date", .str "TBD"),
      ("location_focus", .str "Radio Station Complex"),
      ("scenes", .arr [
        .obj [
          ("scene_number", .num 9),
          ("scene_title", .str "EXT. RADIO STATION - PARKING AREA - DUSK"),
          ("location", .str "Radio Station Parking Area"),
          ("time_of_day", .str "DUSK"),
          ("estimated_duration_minutes", .num 60),
          ("actors_needed", .arr [.str "Maya"]),
          ("extras_needed", .arr []),
          ("call_time", .str "17:00"),
          ("estimated_wrap", .str "18:00"),
          ("setup_notes", .str "Golden hour lighting setup required")],
        .obj [
          ("scene_number", .num 1),
          ("scene_title", .str "EXT. ABANDONED RADIO STATION - NIGHT"),
          ("location", .str "Abandoned Radio Station"),
          ("time_of_day", .str "NIGHT"),
          ("estimated_duration_minutes", .num 60),
          ("actors_needed", .arr []),
          ("extras_needed", .arr []),
          ("call_time", .str "19:00"),
          ("estimated_wrap", .str "20:00"),
          ("setup_notes", .str "Night lighting and atmospheric effects")],
        .obj [
          ("scene_number", .num 2),
          ("scene_title", .str "INT. RADIO STATION - CONTROL ROOM - NIGHT"),
          ("location", .str "Radio Station Control Room"),
          ("time_of_day", .str "NIGHT"),
          ("estimated_duration_minutes", .num 60),
          ("actors_needed", .arr [.str "Maya Chen"]),
          ("extras_needed", .arr []),
          ("call_time", .str "20:30"),
          ("estimated_wrap", .str "21:30"),
          ("setup_notes", .str "Interior lighting setup, practical radio equipment")]]),
      ("daily_summary", .obj [
        ("total_scenes", .num 3),
        ("total_duration_minutes", .num 180),
        ("primary_actors", .arr [.str "Maya", .str "Maya Chen"]),
        ("location_changes", .num 2),
        ("special_requirements", .arr [.str "Night shooting equipment", .str "Atmospheric effects"])])]]),
    ("actor_schedules", .obj [
      ("Maya", .obj [
        ("total_working_days", .num 2),
        ("scenes", .arr [.num 3, .num 4, .num 5, .num 7, .num 8, .num 9]),
        ("schedule_notes", .str "Primary character - appears in most scenes")]),
      ("Maya Chen", .obj [
        ("total_working_days", .num 1),
        ("scenes", .arr [.num 2]),
        ("schedule_notes", .str "Single scene appearance")])]),
    ("location_schedule", .obj [
      ("Radio Station Complex", .obj [
        ("days_needed", .arr [.num 1]),
        ("total_scenes", .num 3),
        ("setup_requirements", .str "Lighting equipment, atmospheric effects, practical radio gear")])]),
    ("optimization_benefits", .arr [
      .str "Grouped Radio Station scenes for efficient setup",
      .str "Natural time progression (DUSK → NIGHT)",
      .str "Minimized location changes",
      .str "Optimized actor schedules"]),
    ("potential_risks", .arr [
      .str "Weather dependency for outdoor scenes",
      .str "Night shooting may require overtime pay",
      .str "Equipment availability for atmospheric effects"])]

/-- `_generate_mock_schedule`: a method that ignores its receiver and
returns the fixed literal. -/
def generate_mock_schedule (_s : SchedulerState) : JsonValue := mockSchedule

/-- The fixed JSON-shape example embedded in the prompt under
`## REQUIRED OUTPUT FORMAT` (braces written with hex escapes). -/
def promptJsonTemplate : String :=
  "\x7b\n" ++
  "  \"optimized_schedule\": \x7b\n" ++
  "    \"scheduling_strategy\": \"Brief explanation of the optimization strategy used\",\n" ++
  "    \"total_shooting_days\": number,\n" ++
  "    \"daily_schedules\": [\n" ++
  "      \x7b\n" ++
  "        \"day\": 1,\n" ++
  "        \"date\": \"TBD\",\n" ++
  "        \"location_focus\": \"Primary location for this day\",\n" ++
  "        \"scenes\": [\n" ++
  "          \x7b\n" ++
  "            \"scene_number\": number,\n" ++
  "            \"scene_title\": \"string\",\n" ++
  "            \"location\": \"string\",\n" ++
  "            \"time_of_day\": \"string\",\n" ++
  "            \"estimated_duration_minutes\": number,\n" ++
  "            \"actors_needed\": [\"list of actor names\"],\n" ++
  "            \"extras_needed\": [\"list of extra types\"],\n" ++
  "            \"call_time\": \"08:00\",\n" ++
  "            \"estimated_wrap\": \"calculated based on duration\",\n" ++
  "            \"setup_notes\": \"Any special setup requirements\"\n" ++
  "          \x7d\n" ++
  "        ],\n" ++
  "        \"daily_summary\": \x7b\n" ++
  "          \"total_scenes\": number,\n" ++
  "          \"total_duration_minutes\": number,\n" ++
  "          \"primary_actors\": [\"main actors working this day\"],\n" ++
  "          \"location_changes\": number,\n" ++
  "          \"special_requirements\": [\"any special needs\"]\n" ++
  "        \x7d\n" ++
  "      \x7d\n" ++
  "    ],\n" ++
  "    \"actor_schedules\": \x7b\n" ++
  "      \"actor_name\": \x7b\n" ++
  "        \"total_working_days\": number,\n" ++
  "        \"scenes\": [list of scene numbers],\n" ++
  "        \"schedule_notes\": \"any conflicts or considerations\"\n" ++
  "      \x7d\n" ++
  "    \x7d,\n" ++
  "    \"location_schedule\": \x7b\n" ++
  "      \"location_name\": \x7b\n" ++
  "        \"days_needed\": [list of day numbers],\n" ++
  "        \"total_scenes\": number,\n" ++
  "        \"setup_requirements\": \"equipment/set dressing needs\"\n" ++
  "      \x7d\n" ++
  "    \x7d,\n" ++
  "    \"optimization_benefits\": [\n" ++
  "      \"List of key benefits achieved by this schedule\"\n" ++
  "    ],\n" ++
  "    \"potential_risks\": [\n" ++
  "      \"List of potential scheduling risks to consider\"\n" ++
  "    ]\n" ++
  "  \x7d\n" ++
  "\x7d\n"

/-- The constant trailer appended to the prompt after the per-scene blocks
(the second `prompt +=` triple-quoted literal of the source). -/
def footerText : String :=
  "\n\n## SCHEDULING CONSTRAINTS:\n" ++
  "1. **Location Efficiency**: Group scenes by location to minimize setup/teardown time and costs\n" ++
  "2. **Actor Availability**: Consider actor scheduling conflicts and minimize their total working days\n" ++
  "3. **Time of Day Logic**: Schedule DAY scenes first, then DUSK, then NIGHT within each location\n" ++
  "4. **Equipment Sharing**: Consider shared equipment needs between similar scenes\n" ++
  "5. **Weather Dependencies**: Outdoor scenes should be grouped and have backup indoor options\n" ++
  "6. **Crew Efficiency**: Minimize crew overtime by balancing daily workloads\n" ++
  "\n## ADDITIONAL CONSIDERATIONS:\n" ++
  "- Radio Station scenes (Control Room, Parking Area, Abandoned) should be scheduled together\n" ++
  "- Maya appears in multiple scenes - optimize her schedule to minimize her working days\n" ++
  "- Government facility scenes may require special permissions/security clearance\n" ++
  "- Desert highway scenes are weather-dependent\n" ++
  "\n## REQUIRED OUTPUT FORMAT:\n" ++
  "Please provide a JSON response with the following structure:\n" ++
  "\n```json\n" ++
  promptJsonTemplate ++
  "```\n" ++
  "\nGenerate the most efficient shooting schedule considering all constraints and provide detailed reasoning for your scheduling decisions.\n"

/-- The body of `if actor_name and actor_name not in actors: actors.append(actor_name)`
for one actor record (`actor.get('name', '')` first). -/
def addActor (acc : List JsonValue) (actor : JsonValue) : Except PyErr (List JsonValue) := do
  let nm ← pyGetD actor "name" (.str "")
  if pyTruthy nm && !(acc.any (pyEq nm)) then pure (acc ++ [nm]) else pure acc

/-- One iteration of the outer actor-collection loop: fetch
`scene.get('actors', [])`, iterate it, and run the inner loop body. -/
def sceneActorsStep (acc : List JsonValue) (sc : JsonValue) :
    Except PyErr (List JsonValue) := do
  let actsV ← pyGetD sc "actors" (.arr [])
  let items ← pyIter actsV
  items.foldlM addActor acc

/-- The nested actor-collection loop of `create_scheduling_prompt`
(lines 30–35 of the source). -/
def buildActors (scenes : List JsonValue) : Except PyErr (List JsonValue) :=
  scenes.foldlM sceneActorsStep []

/-- `', '.join(scene_actors) if scene_actors else 'None'` of the source. -/
def actorsStrOf (sceneActors : List JsonValue) : Except PyErr String :=
  if sceneActors.isEmpty then pure "None" else pyJoinList ", " sceneActors

/-- `', '.join(scene_extras) if scene_extras else 'None'` of the source. -/
def extrasStrOf (extrasV : JsonValue) : Except PyErr String :=
  if pyTruthy extrasV then pyJoinVal ", " extrasV else pure "None"

/-- The per-scene f-string block appended inside the `for scene in scenes`
loop (lines 49–60 of the source). -/
def sceneBlock (sc : JsonValue) : Except PyErr String := do
  let actsV ← pyGetD sc "actors" (.arr [])
  let items ← pyIter actsV
  let sceneActors ← items.mapM (fun a => pyGetD a "name" (.str ""))
  let extrasV ← pyGetD sc "extras" (.arr [])
  let num ← pyGetD sc "scene_number" .null
  let title ← pyGetD sc "scene_title" (.str "")
  let loc ← pyGetD sc "location" (.str "")
  let tod ← pyGetD sc "time_of_day" (.str "")
  let dur ← pyGetD sc "estimated_duration_minutes" (.num 0)
  let actorsStr ← actorsStrOf sceneActors
  let extrasStr ← extrasStrOf extrasV
  pure ("\nScene " ++ pyStr num ++ ": " ++ pyStr title ++
    "\n- Location: " ++ pyStr loc ++
    "\n- Time of Day: " ++ pyStr tod ++
    "\n- Duration: " ++ pyStr dur ++ " minutes" ++
    "\n- Actors: " ++ actorsStr ++
    "\n- Extras: " ++ extrasStr ++ "\n")

/-- Sequential accumulation of the per-scene blocks. -/
def sceneBlocks : List JsonValue → Except PyErr String
  | [] => .ok ""
  | sc :: rest => do
    let b ← sceneBlock sc
    let r ← sceneBlocks rest
    pure (b ++ r)

/-- The opening f-string of the prompt (lines 38–47 of the source). -/
def promptHeader (project_title : JsonValue) (nScenes : Nat)
    (locJoin actJoin : String) : String :=
  "\nYou are an expert film production scheduler. Create an optimal shooting schedule for \"" ++
  pyStr project_title ++
  "\" based on the following constraints and data:\n\n## PROJECT DATA:\nTotal Scenes: " ++
  toString nScenes ++
  "\nLocations: " ++ locJoin ++
  "\nMain Actors: " ++ actJoin ++
  "\n\n## SCENES TO SCHEDULE:\n"

/-- `GeminiScheduler.create_scheduling_prompt`. -/
def create_scheduling_prompt (scenes_data : JsonValue) : Except PyErr String := do
  let ss ← pyGetD scenes_data "shooting_schedule" (.obj [])
  let scenesV ← pyGetD ss "scenes" (.arr [])
  let project_title ← pyGetD scenes_data "project_title" (.str "Film Project")
  let scenes ← pyIter scenesV
  let locVals ← scenes.mapM (fun sc => pyGetD sc "location" (.str ""))
  let locations ← pySetList locVals
  let actors ← buildActors scenes
  let locJoin ← pyJoinList ", " locations
  let actJoin ← pyJoinList ", " actors
  let body ← sceneBlocks scenes
  pure (promptHeader project_title scenes.length locJoin actJoin ++ body ++ footerText)

/-- Result of one `call_gemini_api` invocation: the returned value (or the
exception propagating out of the method), the trace of side effects
performed, and the scheduler state afterwards (the method assigns no
attribute, so it always equals the state before). -/
structure CallOut where
  result : Except PyErr JsonValue
  effects : List Effect
  finalState : SchedulerState

/-- The early-return literal for a missing/empty API key. -/
def missingKeyResult (s : SchedulerState) : JsonValue :=
  .obj [("error", .str "Gemini API key not provided. Set GEMINI_API_KEY environment variable."),
        ("mock_response", .bool true),
        ("optimized_schedule", generate_mock_schedule s)]

/-- The literal built by the `except requests.exceptions.RequestException`
handler. -/
def netErrorResult (s : SchedulerState) (msg : String) : JsonValue :=
  .obj [("error", .str ("Network error calling Gemini API: " ++ msg)),
        ("optimized_schedule", generate_mock_schedule s)]

/-- The chain
`response.json().get('candidates', [{}])[0].get('content', {}).get('parts', [{}])[0].get('text', '')`
followed by the use of the result as a string (`.find`); a non-string
result makes the subsequent `.find` raise, modelled as the final error
case here. -/
def respExtractText (r : JsonValue) : Except PyErr String := do
  let cand ← pyGetD r "candidates" (.arr [.obj []])
  let c0 ← pyIndex0 cand
  let content ← pyGetD c0 "content" (.obj [])
  let parts ← pyGetD content "parts" (.arr [.obj []])
  let p0 ← pyIndex0 parts
  let tv ← pyGetD p0 "text" (.str "")
  match tv with
  | .str s => pure s
  | _ => .error "AttributeError"

/-- `json_start = text_response.find(LBRACE)` of the source (`-1` when absent). -/
def jsonStart (t : String) : Int :=
  match strFind t lbrace with
  | some i => (i : Int)
  | none => -1

/-- `json_end = text_response.rfind(RBRACE) + 1` of the source. -/
def jsonEnd (t : String) : Int :=
  (match strRFind t rbrace with
   | some j => (j : Int)
   | none => -1) + 1

/-- The JSON-substring extraction applied to the text of a 200 response:
`text[text.find(LBRACE) : text.rfind(RBRACE) + 1]` handed to `json.loads`
when `json_start != -1 and json_end > json_start`, `none` otherwise or when
`json.loads` fails. -/
def jsonExtract (jsonLoads : String → Option JsonValue) (t : String) :
    Option JsonValue :=
  if jsonStart t ≠ -1 ∧ jsonEnd t > jsonStart t then
    jsonLoads (pySlice t (jsonStart t).toNat (jsonEnd t).toNat)
  else none

/-- The JSON-block extraction performed on the text of a 200 response
(lines 181–202 of the source): find the first left brace and the last
right brace, hand the slice to `json.loads` when
`json_start != -1 and json_end > json_start`, forward the parsed value
unchanged on success, and otherwise return the error/raw/mock literal of
the matching branch. -/
def parseGeminiText (s : SchedulerState) (jsonLoads : String → Option JsonValue)
    (t : String) : JsonValue :=
  if jsonStart t ≠ -1 ∧ jsonEnd t > jsonStart t then
    match jsonLoads (pySlice t (jsonStart t).toNat (jsonEnd t).toNat) with
    | some v => v
    | none =>
      .obj [("error", .str "Failed to parse JSON from Gemini response"),
            ("raw_response", .str t),
            ("optimized_schedule", generate_mock_schedule s)]
  else
    .obj [("error", .str "No valid JSON found in Gemini response"),
          ("raw_response", .str t),
          ("optimized_schedule", generate_mock_schedule s)]

/-- `GeminiScheduler.call_gemini_api`. The `body = .error` case models
`response.json()` raising `requests.exceptions.JSONDecodeError`, which is a
`RequestException` (requests ≥ 2.27) and is therefore rendered by the same
network-error handler. -/
def call_gemini_api (s : SchedulerState) (jsonLoads : String → Option JsonValue)
    (prompt : String) (net : HttpOutcome) : CallOut :=
  if keyTruthy s.api_key = false then
    { result := .ok (missingKeyResult s), effects := [], finalState := s }
  else
    let url := s.base_url ++ "?key=" ++ keyString s.api_key
    let post := Effect.httpPost url [("Content-Type", "application/json")] (buildPayload prompt) 30
    match net with
    | .requestException msg =>
      { result := .ok (netErrorResult s msg), effects := [post], finalState := s }
    | .response status rtext body =>
      if status = 200 then
        match body with
        | .error msg =>
          { result := .ok (netErrorResult s msg), effects := [post], finalState := s }
        | .ok r =>
          match respExtractText r with
          | .error e => { result := .error e, effects := [post], finalState := s }
          | .ok t =>
            { result := .ok (parseGeminiText s jsonLoads t),
              effects := [post], finalState := s }
      else
        { result := .ok (.obj [
            ("error", .str ("Gemini API error: " ++ toString status)),
            ("message", .str rtext),
            ("optimized_schedule", generate_mock_schedule s)]),
          effects := [post], finalState := s }

/-- The fallback literal built by the `except Exception` handler of
`generate_schedule`. -/
def fallbackResult (now : String) (e : PyErr) : JsonValue :=
  .obj [("error", .str ("Schedule generation failed: " ++ e)),
        ("optimized_schedule", mockSchedule),
        ("generation_info", .obj [
          ("generated_at", .str now),
          ("error", .str e),
          ("fallback_used", .bool true)])]

/-- The `try` body of `generate_schedule`: build the prompt, call the API,
then evaluate the `generation_info` dict literal (whose `input_scenes`
entry re-reads the scene list and applies `len`) and perform
`result['generation_info'] = ...`. Any error escapes to the handler. -/
def gsBody (s : SchedulerState) (jsonLoads : String → Option JsonValue)
    (now : String) (scenes_data : JsonValue) (net : HttpOutcome) :
    Except PyErr JsonValue :=
  match create_scheduling_prompt scenes_data with
  | .error e => .error e
  | .ok prompt =>
    match (call_gemini_api s jsonLoads prompt net).result with
    | .error e => .error e
    | .ok result =>
      match pyGetD scenes_data "shooting_schedule" (.obj []) with
      | .error e => .error e
      | .ok ss =>
        match pyGetD ss "scenes" (.arr []) with
        | .error e => .error e
        | .ok sv =>
          match pyLen sv with
          | .error e => .error e
          | .ok n =>
            setObjKey result "generation_info" (.obj [
              ("generated_at", .str now),
              ("input_scenes", .num n),
              ("ai_model", .str "gemini-pro"),
              ("prompt_length", .num ((prompt.data.length : Nat) : Rat))])

/-- `GeminiScheduler.generate_schedule`. -/
def generate_schedule (s : SchedulerState) (jsonLoads : String → Option JsonValue)
    (now : String) (scenes_data : JsonValue) (net : HttpOutcome) : JsonValue :=
  match gsBody s jsonLoads now scenes_data net with
  | .ok r => r
  | .error e => fallbackResult now e

/-- Substring occurrence: `x` occurs contiguously inside `s`. -/
def occursIn (x s : String) : Prop :=
  List.IsInfix x.data s.data

/-- One step of the specification-side actor accumulation: keep a new name
only when it is non-empty and not yet present. -/
def specActorStep (acc : List String) (n : String) : List String :=
  if n = "" ∨ n ∈ acc then acc else acc ++ [n]

/-- Modelled from the claim wording for the Main Actors list: each distinct
non-empty name is kept exactly once, in order of first appearance, empty
names excluded. Used as the specification side of the refinement proof for
the actor-collection loop. -/
def specMainActors (names : List String) : List String :=
  names.foldl specActorStep []

/-- Builder for a minimal well-typed actor record `{'name': n}`. -/
def mkActor (n : String) : JsonValue :=
  .obj [("name", .str n)]

/-- Builder for a minimal well-typed scene record carrying an actor list. -/
def mkActorsScene (names : List String) : JsonValue :=
  .obj [("actors", .arr (names.map mkActor))]

/-- Concrete scene record used by the witness of the prompt-content claim. -/
def c5Scene : JsonValue :=
  .obj [("scene_number", .num 5), ("location", .str "Lab"),
        ("estimated_duration_minutes", .num 45)]

/-- Concrete input used by the witness of the prompt-content claim. -/
def c5Input : JsonValue :=
  .obj [("shooting_schedule", .obj [("scenes", .arr [c5Scene])])]

/-- The prompt produced on `c5Input` (total by construction). -/
def c5Prompt : String :=
  match create_scheduling_prompt c5Input with
  | .ok p => p
  | .error _ => ""

@[simp]
theorem ok_bind {α β : Type} (a : α) (f : α → Except PyErr β) :
    (Except.ok a >>= f) = f a := rfl

@[simp]
theorem error_bind {α β : Type} (e : PyErr) (f : α → Except PyErr β) :
    ((Except.error e : Except PyErr α) >>= f) = .error e := rfl

@[simp]
theorem pure_eq_ok {α : Type} (a : α) :
    (pure a : Except PyErr α) = .ok a := rfl

theorem except_bind_ok {α β : Type} {m : Except PyErr α} {f : α → Except PyErr β}
    {r : β} (h : (m >>= f) = .ok r) : ∃ a, m = .ok a ∧ f a = .ok r := by
  cases m with
  | error e => rw [error_bind] at h; exact Except.noConfusion h
  | ok a => exact ⟨a, rfl, by rwa [ok_bind] at h⟩

theorem lookupKey_updateOrAppend_self (l : List (String × JsonValue))
    (k : String) (v : JsonValue) :
    lookupKey (updateOrAppend l k v) k = some v := by
  induction l with
  | nil => simp [updateOrAppend, lookupKey]
  | cons kv rest ih =>
    obtain ⟨k2, w⟩ := kv
    by_cases hk : k2 = k
    · simp [updateOrAppend, hk, lookupKey]
    · simp [updateOrAppend, hk, lookupKey, ih]

theorem lookupKey_updateOrAppend_ne (l : List (String × JsonValue))
    (k k2 : String) (v : JsonValue) (h : k2 ≠ k) :
    lookupKey (updateOrAppend l k v) k2 = lookupKey l k2 := by
  induction l with
  | nil =>
    have hne : ¬ (k = k2) := fun hh => h hh.symm
    simp [updateOrAppend, lookupKey, hne]
  | cons kv rest ih =>
    obtain ⟨k3, w⟩ := kv
    by_cases hk : k3 = k
    · subst hk
      have hne : ¬ (k3 = k2) := fun hh => h hh.symm
      simp [updateOrAppend, lookupKey, hne]
    · simp [updateOrAppend, hk, lookupKey, ih]

theorem getKey_setObjKey_self {v : JsonValue} {k : String} {x w : JsonValue}
    (h : setObjKey v k x = .ok w) : getKey w k = some x := by
  cases v <;> simp [setObjKey] at h
  subst h
  simp [getKey, lookupKey_updateOrAppend_self]

theorem getKey_setObjKey_ne {v : JsonValue} {k k2 : String} {x w : JsonValue}
    (h : setObjKey v k x = .ok w) (hne : k2 ≠ k) :
    getKey w k2 = getKey v k2 := by
  cases v <;> simp [setObjKey] at h
  subst h
  simp [getKey, lookupKey_updateOrAppend_ne _ _ _ _ hne]

theorem isObj_of_setObjKey {v : JsonValue} {k : String} {x w : JsonValue}
    (h : setObjKey v k x = .ok w) : isObj w = true := by
  cases v <;> simp [setObjKey] at h
  subst h
  rfl

theorem call_gemini_api_effects (s : SchedulerState)
    (jl : String → Option JsonValue) (prompt : String) (net : HttpOutcome) :
    (call_gemini_api s jl prompt net).effects =
      if keyTruthy s.api_key = false then [] else
        [Effect.httpPost (s.base_url ++ "?key=" ++ keyString s.api_key)
          [("Content-Type", "application/json")] (buildPayload prompt) 30] := by
  unfold call_gemini_api
  split
  · rfl
  · cases net with
    | requestException msg => rfl
    | response status rtext body =>
      dsimp only
      split
      · cases body with
        | error m => rfl
        | ok r =>
          dsimp only
          cases respExtractText r with
          | error e => rfl
          | ok t => rfl
      · rfl

theorem call_gemini_api_finalState (s : SchedulerState)
    (jl : String → Option JsonValue) (prompt : String) (net : HttpOutcome) :
    (call_gemini_api s jl prompt net).finalState = s := by
  unfold call_gemini_api
  split
  · rfl
  · cases net with
    | requestException msg => rfl
    | response status rtext body =>
      dsimp only
      split
      · cases body with
        | error m => rfl
        | ok r =>
          dsimp only
          cases respExtractText r with
          | error e => rfl
          | ok t => rfl
      · rfl

/-- C6: the mock schedule is byte-identical across calls —
`_generate_mock_schedule` ignores its receiver and returns the same fixed
literal on any two invocations. -/
theorem claim6_mock_schedule_constant (s₁ s₂ : SchedulerState) :
    generate_mock_schedule s₁ = generate_mock_schedule s₂ := rfl

/-- C2 (counterexample): the claimed inter-call sleep/busy-wait and
last-call timestamp do not exist. At a concrete call with a present key,
the effect trace contains no sleep at all and the scheduler state is
unchanged (no timestamp is recorded anywhere in it). -/
theorem claim2_counterexample :
    (¬ ∃ d, Effect.sleep d ∈
      (call_gemini_api (schedulerInit (some "k") none) (fun _ => none) "p"
        (.requestException "down")).effects) ∧
    (call_gemini_api (schedulerInit (some "k") none) (fun _ => none) "p"
        (.requestException "down")).finalState = schedulerInit (some "k") none := by
  constructor
  · rintro ⟨d, hd⟩
    rw [call_gemini_api_effects] at hd
    simp [schedulerInit, keyTruthy] at hd
  · rw [call_gemini_api_finalState]

/-- C2 (amended): there is no throttling at all — a call to
`call_gemini_api` never sleeps, performs at most one HTTP POST, and leaves
the scheduler state exactly as it was (the only state is `api_key` and
`base_url`, set in `__init__`; no last-call timestamp exists). -/
theorem claim2_no_throttle_no_mutable_state (s : SchedulerState)
    (jl : String → Option JsonValue) (prompt : String) (net : HttpOutcome) :
    (call_gemini_api s jl prompt net).finalState = s ∧
    (∀ d, Effect.sleep d ∉ (call_gemini_api s jl prompt net).effects) ∧
    ((call_gemini_api s jl prompt net).effects = [] ∨
      ∃ u, (call_gemini_api s jl prompt net).effects =
        [Effect.httpPost u [("Content-Type", "application/json")]
          (buildPayload prompt) 30]) := by
  refine ⟨call_gemini_api_finalState s jl prompt net, ?_, ?_⟩
  · intro d hd
    rw [call_gemini_api_effects] at hd
    split at hd
    · simp at hd
    · simp at hd
  · rw [call_gemini_api_effects]
    split
    · exact Or.inl rfl
    · exact Or.inr ⟨_, rfl⟩

/-- C7: whenever the key is present, the one outbound request targets the
`gemini-pro` endpoint with the key appended, and its payload carries the
fixed generation configuration (temperature 0.3, topK 40, topP 0.95,
maxOutputTokens 4096) independently of the prompt. -/
theorem claim7_fixed_generation_config (a e : Option String) (prompt : String)
    (jl : String → Option JsonValue) (net : HttpOutcome)
    (h : keyTruthy (schedulerInit a e).api_key = true) :
    (∃ k, (schedulerInit a e).api_key = some k ∧
      (call_gemini_api (schedulerInit a e) jl prompt net).effects =
        [Effect.httpPost
          ("https://generativelanguage.googleapis.com/v1beta/models/gemini-pro:generateContent?key=" ++ k)
          [("Content-Type", "application/json")] (buildPayload prompt) 30]) ∧
    getKey (buildPayload prompt) "generationConfig" =
      some (.obj [("temperature", .num ((3 : Rat)/10)), ("topK", .num 40),
        ("topP", .num ((19 : Rat)/20)), ("maxOutputTokens", .num 4096)]) := by
  constructor
  · cases hk : (schedulerInit a e).api_key with
    | none => rw [hk] at h; exact absurd h (by simp [keyTruthy])
    | some k =>
      refine ⟨k, rfl, ?_⟩
      rw [call_gemini_api_effects, if_neg (by simp [h]), hk]
      rfl
  · rfl

/-- C7 witness at a concrete key and prompt. -/
theorem claim7_fixed_generation_config_witness :
    keyTruthy (schedulerInit (some "abc") none).api_key = true ∧
    ((∃ k, (schedulerInit (some "abc") none).api_key = some k ∧
      (call_gemini_api (schedulerInit (some "abc") none) (fun _ => none) "p"
          (.requestException "x")).effects =
        [Effect.httpPost
          ("https://generativelanguage.googleapis.com/v1beta/models/gemini-pro:generateContent?key=" ++ k)
          [("Content-Type", "application/json")] (buildPayload "p") 30]) ∧
    getKey (buildPayload "p") "generationConfig" =
      some (.obj [("temperature", .num ((3 : Rat)/10)), ("topK", .num 40),
        ("topP", .num ((19 : Rat)/20)), ("maxOutputTokens", .num 4096)])) :=
  ⟨rfl, claim7_fixed_generation_config (some "abc") none "p" (fun _ => none)
    (.requestException "x") rfl⟩

theorem call_200_ok_text (s : SchedulerState) (jl : String → Option JsonValue)
    (prompt rtext : String) (r : JsonValue) (t : String)
    (hkey : keyTruthy s.api_key = true) (hex : respExtractText r = .ok t) :
    (call_gemini_api s jl prompt (.response 200 rtext (.ok r))).result =
      .ok (parseGeminiText s jl t) := by
  unfold call_gemini_api
  rw [if_neg (by simp [hkey])]
  simp [hex]

theorem parseGeminiText_success (s : SchedulerState)
    (jl : String → Option JsonValue) (t : String) (i j : Nat) (v : JsonValue)
    (hi : strFind t lbrace = some i) (hj : strRFind t rbrace = some j)
    (hij : i < j) (hparse : jl (pySlice t i (j + 1)) = some v) :
    parseGeminiText s jl t = v := by
  have hjs : jsonStart t = (i : Int) := by simp [jsonStart, hi]
  have hje : jsonEnd t = (j : Int) + 1 := by simp [jsonEnd, hj]
  have hc : ((i : Int) ≠ -1 ∧ (j : Int) + 1 > (i : Int)) := ⟨by omega, by omega⟩
  unfold parseGeminiText
  rw [hjs, hje, if_pos hc]
  simp only [Int.toNat_natCast, Int.toNat_natCast_add_one]
  rw [hparse]

theorem parseGeminiText_fallback (s : SchedulerState)
    (jl : String → Option JsonValue) (t : String)
    (H : strFind t lbrace = none ∨
      ∃ i j, strFind t lbrace = some i ∧ strRFind t rbrace = some j ∧
        jl (pySlice t i (j + 1)) = none) :
    ∃ m, parseGeminiText s jl t =
      .obj [("error", .str m), ("raw_response", .str t),
            ("optimized_schedule", generate_mock_schedule s)] := by
  rcases H with hnone | ⟨i, j, hi, hj, hparse⟩
  · have hjs : jsonStart t = -1 := by simp [jsonStart, hnone]
    unfold parseGeminiText
    rw [hjs, if_neg (fun hc => hc.1 rfl)]
    exact ⟨_, rfl⟩
  · have hjs : jsonStart t = (i : Int) := by simp [jsonStart, hi]
    have hje : jsonEnd t = (j : Int) + 1 := by simp [jsonEnd, hj]
    unfold parseGeminiText
    rw [hjs, hje]
    by_cases hc : ((i : Int) ≠ -1 ∧ (j : Int) + 1 > (i : Int))
    · rw [if_pos hc]
      refine ⟨"Failed to parse JSON from Gemini response", ?_⟩
      simp only [Int.toNat_natCast, Int.toNat_natCast_add_one]
      rw [hparse]
    · rw [if_neg hc]
      exact ⟨_, rfl⟩

/-- C4: a 200 response whose extracted text has its first left brace at
`i` and last right brace at `j > i`, with the slice parsing as JSON, makes
`call_gemini_api` return exactly the parsed value, unchanged and with no
validation against any schema (`v` is arbitrary and in particular need not
contain an `optimized_schedule` key). -/
theorem claim4_parsed_json_forwarded_unvalidated
    (s : SchedulerState) (jl : String → Option JsonValue)
    (prompt rtext t : String) (r v : JsonValue) (i j : Nat)
    (hkey : keyTruthy s.api_key = true)
    (hex : respExtractText r = .ok t)
    (hi : strFind t lbrace = some i) (hj : strRFind t rbrace = some j)
    (hij : i < j) (hparse : jl (pySlice t i (j + 1)) = some v) :
    (call_gemini_api s jl prompt (.response 200 rtext (.ok r))).result = .ok v := by
  rw [call_200_ok_text s jl prompt rtext r t hkey hex,
    parseGeminiText_success s jl t i j v hi hj hij hparse]

/-- C4 witness: concrete 200 response with text `{}` and a parse result
that is a bare number, forwarded as-is. -/
theorem claim4_parsed_json_forwarded_unvalidated_witness :
    keyTruthy (schedulerInit (some "k") none).api_key = true ∧
    respExtractText (.obj [("candidates", .arr [.obj [("content",
      .obj [("parts", .arr [.obj [("text", .str "\x7b\x7d")]])])]])]) =
      .ok "\x7b\x7d" ∧
    strFind "\x7b\x7d" lbrace = some 0 ∧
    strRFind "\x7b\x7d" rbrace = some 1 ∧
    0 < 1 ∧
    (fun s2 => if s2 = "\x7b\x7d" then some (JsonValue.num 7) else none)
      (pySlice "\x7b\x7d" 0 (1 + 1)) = some (JsonValue.num 7) ∧
    (call_gemini_api (schedulerInit (some "k") none)
      (fun s2 => if s2 = "\x7b\x7d" then some (JsonValue.num 7) else none) "p"
      (.response 200 "rt" (.ok (.obj [("candidates", .arr [.obj [("content",
        .obj [("parts", .arr [.obj [("text", .str "\x7b\x7d")]])])]])])))).result =
      .ok (JsonValue.num 7) :=
  ⟨rfl, rfl, by decide, by decide, by decide, rfl,
    claim4_parsed_json_forwarded_unvalidated (schedulerInit (some "k") none)
      (fun s2 => if s2 = "\x7b\x7d" then some (JsonValue.num 7) else none)
      "p" "rt" "\x7b\x7d"
      (.obj [("candidates", .arr [.obj [("content",
        .obj [("parts", .arr [.obj [("text", .str "\x7b\x7d")]])])]])])
      (JsonValue.num 7) 0 1 rfl rfl (by decide) (by decide) (by decide) rfl⟩

/-- C3: a 200 response whose extracted text has no left brace, or whose
first-brace-to-last-brace slice fails to parse, makes `call_gemini_api`
return the mock schedule under `optimized_schedule` with the complete raw
text preserved under `raw_response`. -/
theorem claim3_unparsable_text_yields_mock_with_raw
    (s : SchedulerState) (jl : String → Option JsonValue)
    (prompt rtext t : String) (r : JsonValue)
    (hkey : keyTruthy s.api_key = true)
    (hex : respExtractText r = .ok t)
    (H : strFind t lbrace = none ∨
      ∃ i j, strFind t lbrace = some i ∧ strRFind t rbrace = some j ∧
        jl (pySlice t i (j + 1)) = none) :
    ∃ o, (call_gemini_api s jl prompt (.response 200 rtext (.ok r))).result =
        .ok o ∧
      getKey o "optimized_schedule" = some mockSchedule ∧
      getKey o "raw_response" = some (.str t) := by
  obtain ⟨m, hm⟩ := parseGeminiText_fallback s jl t H
  refine ⟨parseGeminiText s jl t,
    call_200_ok_text s jl prompt rtext r t hkey hex, ?_, ?_⟩
  · rw [hm]; rfl
  · rw [hm]; rfl

/-- C3 witness: concrete 200 response whose text contains no JSON block. -/
theorem claim3_unparsable_text_yields_mock_with_raw_witness :
    keyTruthy (schedulerInit (some "k") none).api_key = true ∧
    respExtractText (.obj [("candidates", .arr [.obj [("content",
      .obj [("parts", .arr [.obj [("text", .str "no json here")]])])]])]) =
      .ok "no json here" ∧
    (strFind "no json here" lbrace = none ∨
      ∃ i j, strFind "no json here" lbrace = some i ∧
        strRFind "no json here" rbrace = some j ∧
        (fun _ => (none : Option JsonValue)) (pySlice "no json here" i (j + 1)) = none) ∧
    ∃ o, (call_gemini_api (schedulerInit (some "k") none)
        (fun _ => (none : Option JsonValue)) "p"
        (.response 200 "rt" (.ok (.obj [("candidates", .arr [.obj [("content",
          .obj [("parts", .arr [.obj [("text", .str "no json here")]])])]])])))).result =
        .ok o ∧
      getKey o "optimized_schedule" = some mockSchedule ∧
      getKey o "raw_response" = some (.str "no json here") :=
  ⟨rfl, rfl, Or.inl (by decide),
    claim3_unparsable_text_yields_mock_with_raw (schedulerInit (some "k") none)
      (fun _ => none) "p" "rt" "no json here"
      (.obj [("candidates", .arr [.obj [("content",
        .obj [("parts", .arr [.obj [("text", .str "no json here")]])])]])])
      rfl rfl (Or.inl (by decide))⟩

theorem gsBody_shape (s : SchedulerState) (jl : String → Option JsonValue)
    (now : String) (sd : JsonValue) (net : HttpOutcome) (r : JsonValue)
    (hb : gsBody s jl now sd net = .ok r) :
    ∃ p o gi, create_scheduling_prompt sd = .ok p ∧
      (call_gemini_api s jl p net).result = .ok o ∧
      getKey gi "generated_at" = some (.str now) ∧
      setObjKey o "generation_info" gi = .ok r := by
  unfold gsBody at hb
  split at hb
  · exact Except.noConfusion hb
  · rename_i p hp
    split at hb
    · exact Except.noConfusion hb
    · rename_i o hc
      split at hb
      · exact Except.noConfusion hb
      · rename_i ssv hss
        split at hb
        · exact Except.noConfusion hb
        · rename_i sv hsv
          split at hb
          · exact Except.noConfusion hb
          · rename_i n hn
            exact ⟨p, o,
              .obj [("generated_at", .str now), ("input_scenes", .num n),
                ("ai_model", .str "gemini-pro"),
                ("prompt_length", .num ((p.data.length : Nat) : Rat))],
              hp, hc, rfl, hb⟩

/-- C8: every value returned by `generate_schedule`, on every path
(successful remote call, any API-level failure, or any caught exception),
carries a `generation_info` entry whose `generated_at` field is the
timestamp taken during that call. -/
theorem claim8_generation_info_always_present (s : SchedulerState)
    (jl : String → Option JsonValue) (now : String) (sd : JsonValue)
    (net : HttpOutcome) :
    ∃ gi, getKey (generate_schedule s jl now sd net) "generation_info" = some gi ∧
      getKey gi "generated_at" = some (.str now) := by
  unfold generate_schedule
  cases hb : gsBody s jl now sd net with
  | error e => exact ⟨_, rfl, rfl⟩
  | ok r =>
    obtain ⟨p, o, gi, hp, hc, hgat, hset⟩ := gsBody_shape s jl now sd net r hb
    exact ⟨gi, getKey_setObjKey_self hset, hgat⟩

/-- C9: `generate_schedule` is total at the public interface — for every
input value (well-formed or not) and every outcome of the external calls
it returns a dictionary; no internal exception escapes (in the embedding,
`generate_schedule` returns a plain `JsonValue`, never an `Except.error`,
and that value is always an object). -/
theorem claim9_generate_schedule_total_returns_dict (s : SchedulerState)
    (jl : String → Option JsonValue) (now : String) (sd : JsonValue)
    (net : HttpOutcome) :
    isObj (generate_schedule s jl now sd net) = true := by
  unfold generate_schedule
  cases hb : gsBody s jl now sd net with
  | error e => rfl
  | ok r =>
    obtain ⟨p, o, gi, hp, hc, hgat, hset⟩ := gsBody_shape s jl now sd net r hb
    exact isObj_of_setObjKey hset

theorem parseGeminiText_of_jsonExtract_none (s : SchedulerState)
    (jl : String → Option JsonValue) (t : String)
    (h : jsonExtract jl t = none) :
    ∃ m, parseGeminiText s jl t =
      .obj [("error", .str m), ("raw_response", .str t),
            ("optimized_schedule", generate_mock_schedule s)] := by
  unfold jsonExtract at h
  unfold parseGeminiText
  by_cases hc : (jsonStart t ≠ -1 ∧ jsonEnd t > jsonStart t)
  · rw [if_pos hc] at h ⊢
    rw [h]
    exact ⟨_, rfl⟩
  · rw [if_neg hc]
    exact ⟨_, rfl⟩

theorem call_result_error_mock (s : SchedulerState)
    (jl : String → Option JsonValue) (p : String) (net : HttpOutcome)
    (h : keyTruthy s.api_key = false
      ∨ (∃ msg, net = .requestException msg)
      ∨ (∃ st rt b, net = .response st rt b ∧ st ≠ 200)
      ∨ (∃ rt msg, net = .response 200 rt (.error msg))
      ∨ (∃ rt r t, net = .response 200 rt (.ok r) ∧ respExtractText r = .ok t ∧
          (t = "" ∨ jsonExtract jl t = none))) :
    ∃ o, (call_gemini_api s jl p net).result = .ok o ∧
      (∃ m, getKey o "error" = some (.str m)) ∧
      getKey o "optimized_schedule" = some mockSchedule := by
  by_cases hk : keyTruthy s.api_key = false
  · refine ⟨missingKeyResult s, ?_, ⟨_, rfl⟩, rfl⟩
    unfold call_gemini_api
    rw [if_pos hk]
  · have hk2 : keyTruthy s.api_key = true := by
      cases hkk : keyTruthy s.api_key
      · exact absurd hkk hk
      · rfl
    rcases h with h | ⟨msg, hnet⟩ | ⟨st, rt, b, hnet, hst⟩ | ⟨rt, msg, hnet⟩ |
      ⟨rt, r, t, hnet, hex, hfail⟩
    · exact absurd h hk
    · subst hnet
      refine ⟨netErrorResult s msg, ?_, ⟨_, rfl⟩, rfl⟩
      unfold call_gemini_api
      rw [if_neg hk]
    · subst hnet
      refine ⟨.obj [("error", .str ("Gemini API error: " ++ toString st)),
        ("message", .str rt),
        ("optimized_schedule", generate_mock_schedule s)], ?_, ⟨_, rfl⟩, rfl⟩
      unfold call_gemini_api
      rw [if_neg hk]
      dsimp only
      rw [if_neg hst]
    · subst hnet
      refine ⟨netErrorResult s msg, ?_, ⟨_, rfl⟩, rfl⟩
      unfold call_gemini_api
      rw [if_neg hk]
      dsimp only
      rw [if_pos rfl]
    · subst hnet
      have hje : jsonExtract jl t = none := by
        rcases hfail with he | he
        · subst he
          unfold jsonExtract
          exact if_neg (fun hc => hc.1 rfl)
        · exact he
      obtain ⟨m, hm⟩ := parseGeminiText_of_jsonExtract_none s jl t hje
      refine ⟨parseGeminiText s jl t,
        call_200_ok_text s jl p rt r t hk2 hex, ⟨m, ?_⟩, ?_⟩
      · rw [hm]; rfl
      · rw [hm]; rfl

/-- C1: every failure mode of schedule generation — missing credential,
network failure, non-200 status, unparsable response body, empty or
JSON-free response text, or an exception raised while building the prompt
or extracting the response — produces a result that carries an `error`
(or `message`) field and the static mock schedule under
`optimized_schedule`. -/
theorem claim1_uniform_degrade_to_mock (s : SchedulerState)
    (jl : String → Option JsonValue) (now : String) (sd : JsonValue)
    (net : HttpOutcome)
    (hF : keyTruthy s.api_key = false
      ∨ (∃ msg, net = .requestException msg)
      ∨ (∃ st rt b, net = .response st rt b ∧ st ≠ 200)
      ∨ (∃ rt msg, net = .response 200 rt (.error msg))
      ∨ (∃ rt r e, net = .response 200 rt (.ok r) ∧ respExtractText r = .error e)
      ∨ (∃ rt r t, net = .response 200 rt (.ok r) ∧ respExtractText r = .ok t ∧
          (t = "" ∨ jsonExtract jl t = none))
      ∨ (∃ e, create_scheduling_prompt sd = .error e)) :
    ((getKey (generate_schedule s jl now sd net) "error").isSome = true ∨
      (getKey (generate_schedule s jl now sd net) "message").isSome = true) ∧
    getKey (generate_schedule s jl now sd net) "optimized_schedule" =
      some mockSchedule := by
  unfold generate_schedule
  cases hb : gsBody s jl now sd net with
  | error e => exact ⟨Or.inl rfl, rfl⟩
  | ok r =>
    obtain ⟨p, o, gi, hp, hc, hgat, hset⟩ := gsBody_shape s jl now sd net r hb
    have ho : (∃ m, getKey o "error" = some (JsonValue.str m)) ∧
        getKey o "optimized_schedule" = some mockSchedule := by
      rcases hF with h | h | h | h | ⟨rt, r2, e2, hnet, hex⟩ | h | ⟨e2, hpe⟩
      · obtain ⟨o2, hc2, hm, hmock⟩ := call_result_error_mock s jl p net (Or.inl h)
        rw [hc] at hc2
        injection hc2 with hh
        subst hh
        exact ⟨hm, hmock⟩
      · obtain ⟨o2, hc2, hm, hmock⟩ :=
          call_result_error_mock s jl p net (Or.inr (Or.inl h))
        rw [hc] at hc2
        injection hc2 with hh
        subst hh
        exact ⟨hm, hmock⟩
      · obtain ⟨o2, hc2, hm, hmock⟩ :=
          call_result_error_mock s jl p net (Or.inr (Or.inr (Or.inl h)))
        rw [hc] at hc2
        injection hc2 with hh
        subst hh
        exact ⟨hm, hmock⟩
      · obtain ⟨o2, hc2, hm, hmock⟩ :=
          call_result_error_mock s jl p net (Or.inr (Or.inr (Or.inr (Or.inl h))))
        rw [hc] at hc2
        injection hc2 with hh
        subst hh
        exact ⟨hm, hmock⟩
      · by_cases hk : keyTruthy s.api_key = false
        · obtain ⟨o2, hc2, hm, hmock⟩ :=
            call_result_error_mock s jl p net (Or.inl hk)
          rw [hc] at hc2
          injection hc2 with hh
          subst hh
          exact ⟨hm, hmock⟩
        · have hk2 : keyTruthy s.api_key = true := by
            cases hkk : keyTruthy s.api_key
            · exact absurd hkk hk
            · rfl
          subst hnet
          have herr : (call_gemini_api s jl p
              (.response 200 rt (.ok r2))).result = .error e2 := by
            unfold call_gemini_api
            rw [if_neg hk]
            simp [hex]
          rw [hc] at herr
          exact Except.noConfusion herr
      · obtain ⟨o2, hc2, hm, hmock⟩ :=
          call_result_error_mock s jl p net
            (Or.inr (Or.inr (Or.inr (Or.inr h))))
        rw [hc] at hc2
        injection hc2 with hh
        subst hh
        exact ⟨hm, hmock⟩
      · rw [hp] at hpe
        exact Except.noConfusion hpe
    obtain ⟨⟨m, hm⟩, hmock⟩ := ho
    constructor
    · left
      show (getKey r "error").isSome = true
      rw [getKey_setObjKey_ne hset (by decide), hm]
      rfl
    · show getKey r "optimized_schedule" = some mockSchedule
      rw [getKey_setObjKey_ne hset (by decide), hmock]

/-- C1 witness: concrete run with the API key missing. -/
theorem claim1_uniform_degrade_to_mock_witness :
    (keyTruthy (schedulerInit none none).api_key = false
      ∨ (∃ msg, (HttpOutcome.requestException "x") = .requestException msg)
      ∨ (∃ st rt b, (HttpOutcome.requestException "x") = .response st rt b ∧ st ≠ 200)
      ∨ (∃ rt msg, (HttpOutcome.requestException "x") = .response 200 rt (.error msg))
      ∨ (∃ rt r e, (HttpOutcome.requestException "x") = .response 200 rt (.ok r) ∧
          respExtractText r = .error e)
      ∨ (∃ rt r t, (HttpOutcome.requestException "x") = .response 200 rt (.ok r) ∧
          respExtractText r = .ok t ∧
          (t = "" ∨ jsonExtract (fun _ => none) t = none))
      ∨ (∃ e, create_scheduling_prompt (.obj []) = .error e)) ∧
    (((getKey (generate_schedule (schedulerInit none none) (fun _ => none) "NOW"
        (.obj []) (.requestException "x")) "error").isSome = true ∨
      (getKey (generate_schedule (schedulerInit none none) (fun _ => none) "NOW"
        (.obj []) (.requestException "x")) "message").isSome = true) ∧
    getKey (generate_schedule (schedulerInit none none) (fun _ => none) "NOW"
        (.obj []) (.requestException "x")) "optimized_schedule" =
      some mockSchedule) :=
  ⟨Or.inl rfl,
    claim1_uniform_degrade_to_mock (schedulerInit none none) (fun _ => none)
      "NOW" (.obj []) (.requestException "x") (Or.inl rfl)⟩

theorem occursIn_refl (x : String) : occursIn x x :=
  ⟨[], [], by simp⟩

theorem occursIn_trans {x y z : String} (h1 : occursIn x y) (h2 : occursIn y z) :
    occursIn x z :=
  List.IsInfix.trans h1 h2

theorem occursIn_append_left {x s : String} (t : String) (h : occursIn x s) :
    occursIn x (s ++ t) := by
  unfold occursIn at h ⊢
  rw [String.data_append]
  exact List.IsInfix.trans h ((List.prefix_append s.data t.data).isInfix)

theorem occursIn_append_right (s : String) {x t : String} (h : occursIn x t) :
    occursIn x (s ++ t) := by
  unfold occursIn at h ⊢
  rw [String.data_append]
  exact List.IsInfix.trans h ((List.suffix_append s.data t.data).isInfix)

theorem pyGetD_of_getKey (v : JsonValue) (k : String) (d x : JsonValue)
    (h : getKey v k = some x) : pyGetD v k d = .ok x := by
  cases v <;> simp [getKey] at h
  simp [pyGetD, h]

theorem sceneBlocks_mem (scenes : List JsonValue) (out : String)
    (h : sceneBlocks scenes = .ok out) (sc : JsonValue) (hmem : sc ∈ scenes) :
    ∃ b, sceneBlock sc = .ok b ∧ occursIn b out := by
  induction scenes generalizing out with
  | nil => cases hmem
  | cons hd tl ih =>
    unfold sceneBlocks at h
    obtain ⟨b, hb, h2⟩ := except_bind_ok h
    obtain ⟨r, hr, h3⟩ := except_bind_ok h2
    rw [pure_eq_ok] at h3
    injection h3 with h3e
    subst h3e
    cases hmem with
    | head => exact ⟨b, hb, occursIn_append_left r (occursIn_refl b)⟩
    | tail _ hmem2 =>
      obtain ⟨b2, hb2, hocc⟩ := ih r hr hmem2
      exact ⟨b2, hb2, occursIn_append_right b hocc⟩

theorem sceneBlock_fields (sc : JsonValue) (b : String) (num loc dur : JsonValue)
    (hnum : getKey sc "scene_number" = some num)
    (hloc : getKey sc "location" = some loc)
    (hdur : getKey sc "estimated_duration_minutes" = some dur)
    (hb : sceneBlock sc = .ok b) :
    occursIn (pyStr num) b ∧ occursIn (pyStr loc) b ∧ occursIn (pyStr dur) b := by
  unfold sceneBlock at hb
  obtain ⟨actsV, h1, hb⟩ := except_bind_ok hb
  obtain ⟨items, h2, hb⟩ := except_bind_ok hb
  obtain ⟨sceneActors, h3, hb⟩ := except_bind_ok hb
  obtain ⟨extrasV, h4, hb⟩ := except_bind_ok hb
  obtain ⟨num2, h5, hb⟩ := except_bind_ok hb
  rw [pyGetD_of_getKey sc "scene_number" .null num hnum] at h5
  injection h5 with h5e
  subst h5e
  obtain ⟨title, h6, hb⟩ := except_bind_ok hb
  obtain ⟨loc2, h7, hb⟩ := except_bind_ok hb
  rw [pyGetD_of_getKey sc "location" (.str "") loc hloc] at h7
  injection h7 with h7e
  subst h7e
  obtain ⟨tod, h8, hb⟩ := except_bind_ok hb
  obtain ⟨dur2, h9, hb⟩ := except_bind_ok hb
  rw [pyGetD_of_getKey sc "estimated_duration_minutes" (.num 0) dur hdur] at h9
  injection h9 with h9e
  subst h9e
  obtain ⟨actorsStr, h10, hb⟩ := except_bind_ok hb
  obtain ⟨extrasStr, h11, hb⟩ := except_bind_ok hb
  simp only [pure_eq_ok, Except.ok.injEq] at hb
  subst hb
  refine ⟨?_, ?_, ?_⟩
  · exact occursIn_append_left _ (occursIn_append_left _ (occursIn_append_left _
      (occursIn_append_left _ (occursIn_append_left _ (occursIn_append_left _
      (occursIn_append_left _ (occursIn_append_left _ (occursIn_append_left _
      (occursIn_append_left _ (occursIn_append_left _ (occursIn_append_left _
      (occursIn_append_left _ (occursIn_append_left _
      (occursIn_append_right _ (occursIn_refl _)))))))))))))))
  · exact occursIn_append_left _ (occursIn_append_left _ (occursIn_append_left _
      (occursIn_append_left _ (occursIn_append_left _ (occursIn_append_left _
      (occursIn_append_left _ (occursIn_append_left _ (occursIn_append_left _
      (occursIn_append_left _
      (occursIn_append_right _ (occursIn_refl _)))))))))))
  · exact occursIn_append_left _ (occursIn_append_left _ (occursIn_append_left _
      (occursIn_append_left _ (occursIn_append_left _ (occursIn_append_left _
      (occursIn_append_right _ (occursIn_refl _)))))))

/-- C5: for an input whose scenes entry is a list of scene records, the
prompt returned by `create_scheduling_prompt` contains, for each scene in
the list, the rendering of that scene's scene number, its location, and
its estimated duration in minutes. -/
theorem claim5_prompt_contains_scene_fields (sd ssv : JsonValue)
    (scenes : List JsonValue) (sc : JsonValue) (num loc dur : JsonValue)
    (P : String)
    (hss : getKey sd "shooting_schedule" = some ssv)
    (hsc : getKey ssv "scenes" = some (.arr scenes))
    (hmem : sc ∈ scenes)
    (hnum : getKey sc "scene_number" = some num)
    (hloc : getKey sc "location" = some loc)
    (hdur : getKey sc "estimated_duration_minutes" = some dur)
    (hprompt : create_scheduling_prompt sd = .ok P) :
    occursIn (pyStr num) P ∧ occursIn (pyStr loc) P ∧ occursIn (pyStr dur) P := by
  unfold create_scheduling_prompt at hprompt
  obtain ⟨ssv2, h1, hp1⟩ := except_bind_ok hprompt
  rw [pyGetD_of_getKey sd "shooting_schedule" (.obj []) ssv hss] at h1
  injection h1 with h1e
  subst h1e
  obtain ⟨scv2, h2, hp2⟩ := except_bind_ok hp1
  rw [pyGetD_of_getKey ssv "scenes" (.arr []) (.arr scenes) hsc] at h2
  injection h2 with h2e
  subst h2e
  obtain ⟨title, h3, hp3⟩ := except_bind_ok hp2
  obtain ⟨scenes2, h4, hp4⟩ := except_bind_ok hp3
  simp only [pyIter, Except.ok.injEq] at h4
  subst h4
  obtain ⟨locVals, h5, hp5⟩ := except_bind_ok hp4
  obtain ⟨locations, h6, hp6⟩ := except_bind_ok hp5
  obtain ⟨actors, h7, hp7⟩ := except_bind_ok hp6
  obtain ⟨locJoin, h8, hp8⟩ := except_bind_ok hp7
  obtain ⟨actJoin, h9, hp9⟩ := except_bind_ok hp8
  obtain ⟨body, h10, hp10⟩ := except_bind_ok hp9
  simp only [pure_eq_ok, Except.ok.injEq] at hp10
  subst hp10
  obtain ⟨b, hb, hocc⟩ := sceneBlocks_mem scenes body h10 sc hmem
  obtain ⟨o1, o2, o3⟩ := sceneBlock_fields sc b num loc dur hnum hloc hdur hb
  have hbody : occursIn body
      (promptHeader title scenes.length locJoin actJoin ++ body ++ footerText) :=
    occursIn_append_left _ (occursIn_append_right _ (occursIn_refl body))
  exact ⟨occursIn_trans (occursIn_trans o1 hocc) hbody,
    occursIn_trans (occursIn_trans o2 hocc) hbody,
    occursIn_trans (occursIn_trans o3 hocc) hbody⟩

/-- C5 witness at a concrete one-scene input. -/
theorem claim5_prompt_contains_scene_fields_witness :
    (getKey c5Input "shooting_schedule" = some (.obj [("scenes", .arr [c5Scene])]) ∧
    getKey (.obj [("scenes", .arr [c5Scene])]) "scenes" = some (.arr [c5Scene]) ∧
    c5Scene ∈ [c5Scene] ∧
    getKey c5Scene "scene_number" = some (.num 5) ∧
    getKey c5Scene "location" = some (.str "Lab") ∧
    getKey c5Scene "estimated_duration_minutes" = some (.num 45) ∧
    create_scheduling_prompt c5Input = .ok c5Prompt) ∧
    (occursIn (pyStr (.num 5)) c5Prompt ∧
     occursIn (pyStr (.str "Lab")) c5Prompt ∧
     occursIn (pyStr (.num 45)) c5Prompt) :=
  ⟨⟨rfl, rfl, List.Mem.head _, rfl, rfl, rfl, rfl⟩,
    claim5_prompt_contains_scene_fields c5Input
      (.obj [("scenes", .arr [c5Scene])]) [c5Scene] c5Scene
      (.num 5) (.str "Lab") (.num 45) c5Prompt
      rfl rfl (List.Mem.head _) rfl rfl rfl rfl⟩

theorem addActor_mkActor (acc : List String) (n : String) :
    addActor (acc.map JsonValue.str) (mkActor n) =
      .ok ((specActorStep acc n).map JsonValue.str) := by
  unfold addActor mkActor specActorStep
  have h1 : pyGetD (JsonValue.obj [("name", JsonValue.str n)]) "name" (.str "") =
      .ok (.str n) := rfl
  rw [h1, ok_bind]
  by_cases hn : n = ""
  · subst hn
    simp [pyTruthy]
  · by_cases hm : n ∈ acc
    · have hany : (acc.map JsonValue.str).any (fun a => pyEq (.str n) a) = true := by
        rw [List.any_eq_true]
        exact ⟨.str n, List.mem_map_of_mem _ hm, by simp [pyEq]⟩
      simp [pyTruthy, hn, hany, hm]
    · have hany : (acc.map JsonValue.str).any (fun a => pyEq (.str n) a) = false := by
        rw [List.any_eq_false]
        intro x hx
        obtain ⟨m2, hm2, rfl⟩ := List.mem_map.mp hx
        simp [pyEq]
        exact fun he => hm (he ▸ hm2)
      simp [pyTruthy, hn, hany, hm]

theorem foldActors_mkActor (ns : List String) (acc : List String) :
    ((ns.map mkActor).foldlM addActor (acc.map JsonValue.str)) =
      .ok ((ns.foldl specActorStep acc).map JsonValue.str) := by
  induction ns generalizing acc with
  | nil => rfl
  | cons n t ih =>
    rw [List.map_cons, List.foldlM_cons, addActor_mkActor acc n, ok_bind]
    exact ih _

theorem sceneActorsStep_mkScene (acc : List String) (ns : List String) :
    sceneActorsStep (acc.map JsonValue.str) (mkActorsScene ns) =
      .ok ((ns.foldl specActorStep acc).map JsonValue.str) := by
  unfold sceneActorsStep mkActorsScene
  have h1 : pyGetD (JsonValue.obj [("actors", .arr (ns.map mkActor))]) "actors"
      (.arr []) = .ok (.arr (ns.map mkActor)) := rfl
  rw [h1, ok_bind]
  have h2 : pyIter (.arr (ns.map mkActor)) = .ok (ns.map mkActor) := rfl
  rw [h2, ok_bind]
  exact foldActors_mkActor ns acc

theorem buildActors_mkScenes_general (nss : List (List String)) (acc : List String) :
    ((nss.map mkActorsScene).foldlM sceneActorsStep (acc.map JsonValue.str)) =
      .ok ((nss.flatten.foldl specActorStep acc).map JsonValue.str) := by
  induction nss generalizing acc with
  | nil => rfl
  | cons ns t ih =>
    rw [List.map_cons, List.foldlM_cons, sceneActorsStep_mkScene acc ns, ok_bind,
      ih (ns.foldl specActorStep acc), List.flatten_cons, List.foldl_append]

theorem specActorStep_foldl_nodup (l : List String) (acc : List String)
    (h : acc.Nodup) : (l.foldl specActorStep acc).Nodup := by
  induction l generalizing acc with
  | nil => exact h
  | cons n t ih =>
    rw [List.foldl_cons]
    apply ih
    unfold specActorStep
    split
    · exact h
    · rename_i hcond
      push_neg at hcond
      refine List.Nodup.append h (List.nodup_singleton n) ?_
      intro a ha hb
      rw [List.mem_singleton] at hb
      subst hb
      exact hcond.2 ha

theorem specActorStep_foldl_mem (l : List String) (acc : List String) (n : String) :
    n ∈ l.foldl specActorStep acc ↔ (n ∈ acc ∨ (n ≠ "" ∧ n ∈ l)) := by
  induction l generalizing acc with
  | nil => simp
  | cons m t ih =>
    rw [List.foldl_cons, ih]
    unfold specActorStep
    split
    · rename_i hcond
      simp only [List.mem_cons]
      constructor
      · rintro (h | ⟨hne, hmem⟩)
        · exact Or.inl h
        · exact Or.inr ⟨hne, Or.inr hmem⟩
      · rintro (h | ⟨hne, (rfl | hmem)⟩)
        · exact Or.inl h
        · rcases hcond with he | hm2
          · exact absurd he hne
          · exact Or.inl hm2
        · exact Or.inr ⟨hne, hmem⟩
    · rename_i hcond
      push_neg at hcond
      obtain ⟨hne0, hnm⟩ := hcond
      simp only [List.mem_cons, List.mem_append, List.mem_singleton, List.not_mem_nil, or_false]
      constructor
      · rintro ((h | rfl) | ⟨hne, hmem⟩)
        · exact Or.inl h
        · exact Or.inr ⟨hne0, Or.inl rfl⟩
        · exact Or.inr ⟨hne, Or.inr hmem⟩
      · rintro (h | ⟨hne, (rfl | hmem)⟩)
        · exact Or.inl (Or.inl h)
        · exact Or.inl (Or.inr rfl)
        · exact Or.inr ⟨hne, hmem⟩

/-- C10: on any scene list built from per-scene actor-name lists, the
collected Main Actors list is exactly the first-occurrence deduplication of
the non-empty names in order of first appearance: it equals
`specMainActors`, has no duplicates (each name exactly once), and contains
a name iff that name is non-empty and appears in some scene. -/
theorem claim10_main_actors_distinct_nonempty_in_order (nss : List (List String)) :
    buildActors (nss.map mkActorsScene) =
      .ok ((specMainActors nss.flatten).map JsonValue.str) ∧
    (specMainActors nss.flatten).Nodup ∧
    (∀ n, n ∈ specMainActors nss.flatten ↔ (n ≠ "" ∧ n ∈ nss.flatten)) := by
  refine ⟨?_, ?_, ?_⟩
  · unfold buildActors specMainActors
    have h0 : (([] : List String).map JsonValue.str) = [] := rfl
    rw [← h0, buildActors_mkScenes_general nss []]
  · exact specActorStep_foldl_nodup nss.flatten [] List.nodup_nil
  · intro n
    unfold specMainActors
    rw [specActorStep_foldl_mem nss.flatten [] n]
    simp
